import Mathlib

/-
  Verification of the pductl PDU controller core against its specification.

  Shallow embedding conventions:
  * Go float64/float32 arithmetic is modelled over exact rationals (ℚ);
  * `time.Time` values are modelled as rationals (hours, for the energy
    integrator) or integers (milliseconds, for the TTL cache);
  * fallible Go functions are modelled with `Except`/`Option`;
  * regex-decoded numeric captures are carried as already-parsed values,
    since the source patterns admit only digit strings.
-/

namespace Pductl

/-! ## Data model (status.go / internal API Status schema) -/

/-- One breaker record: name, id and current measurements. -/
structure BreakerStatus where
  name : String
  id : Int
  trueRMSCurrent : ℚ
  peakRMSCurrent : ℚ
deriving DecidableEq, Inhabited

/-- One outlet-group record with its measurements and cumulative energy. -/
structure GroupStatus where
  name : String
  id : Int
  breakerID : Int
  trueRMSCurrent : ℚ
  peakRMSCurrent : ℚ
  trueRMSVoltage : ℚ
  averagePower : ℚ
  voltAmps : ℚ
  energy : ℚ
deriving DecidableEq, Inhabited

/-- One outlet record with topology ids, switch/lock state, measurements
and cumulative energy. -/
structure OutletStatus where
  name : String
  id : Int
  groupID : Int
  breakerID : Int
  state : Bool
  locked : Bool
  trueRMSCurrent : ℚ
  peakRMSCurrent : ℚ
  trueRMSVoltage : ℚ
  averagePower : ℚ
  voltAmps : ℚ
  energy : ℚ
deriving DecidableEq, Inhabited

/-- A full status snapshot.  The timestamp is measured in hours. -/
structure Status where
  timestamp : ℚ
  temperature : ℚ
  totalKwh : ℚ
  switches : List Bool
  breakers : List BreakerStatus
  groups : List GroupStatus
  outlets : List OutletStatus
deriving DecidableEq, Inhabited

/-! ## Energy integrator (calc.go, CalcEnergy) -/

/-- The per-group loop of CalcEnergy: walks the previous and new group
lists in lockstep; position i of the result is the new group with its
energy set to the previous group's energy plus the trapezoid increment.
The Go loop indexes the previous list by the new list's indices and
panics if the previous list is shorter; that out-of-domain case is left
as the unmodified tail here. -/
def calcGroupsEnergy (deltaT : ℚ) : List GroupStatus → List GroupStatus → List GroupStatus
  | prevG :: prevRest, newG :: newRest =>
    let prevPower := prevG.trueRMSCurrent * prevG.trueRMSVoltage
    let newPower := newG.trueRMSCurrent * newG.trueRMSVoltage
    { newG with energy := prevG.energy + 1e-3 * deltaT * (prevPower + newPower) / 2 }
      :: calcGroupsEnergy deltaT prevRest newRest
  | _, newRest => newRest

/-- The per-outlet loop of CalcEnergy, identical in shape to the
per-group loop. -/
def calcOutletsEnergy (deltaT : ℚ) : List OutletStatus → List OutletStatus → List OutletStatus
  | prevO :: prevRest, newO :: newRest =>
    let prevPower := prevO.trueRMSCurrent * prevO.trueRMSVoltage
    let newPower := newO.trueRMSCurrent * newO.trueRMSVoltage
    { newO with energy := prevO.energy + 1e-3 * deltaT * (prevPower + newPower) / 2 }
      :: calcOutletsEnergy deltaT prevRest newRest
  | _, newRest => newRest

/-- CalcEnergy (calc.go): updates the new snapshot's group and outlet
energies from the previous snapshot.  deltaT is the timestamp gap in
hours, as produced by Sub(...).Hours() in the source. -/
def calcEnergy (prevSts newSts : Status) : Status :=
  let deltaT := newSts.timestamp - prevSts.timestamp
  { newSts with
    groups := calcGroupsEnergy deltaT prevSts.groups newSts.groups
    outlets := calcOutletsEnergy deltaT prevSts.outlets newSts.outlets }

theorem calcGroupsEnergy_getD (deltaT : ℚ) :
    ∀ (prev new : List GroupStatus) (i : Nat), prev.length = new.length →
      i < new.length →
      (calcGroupsEnergy deltaT prev new).getD i default =
        { new.getD i default with
          energy := (prev.getD i default).energy
            + 1e-3 * deltaT * ((prev.getD i default).trueRMSCurrent * (prev.getD i default).trueRMSVoltage
              + (new.getD i default).trueRMSCurrent * (new.getD i default).trueRMSVoltage) / 2 } := by
  intro prev
  induction prev with
  | nil =>
    intro new i hlen hi
    simp only [List.length_nil] at hlen
    omega
  | cons p ps ih =>
    intro new i hlen hi
    cases new with
    | nil => simp at hi
    | cons n ns =>
      cases i with
      | zero => simp [calcGroupsEnergy]
      | succ j =>
        simp only [calcGroupsEnergy, List.getD_cons_succ]
        exact ih ns j (by simpa using hlen) (by simpa using hi)

theorem calcOutletsEnergy_getD (deltaT : ℚ) :
    ∀ (prev new : List OutletStatus) (i : Nat), prev.length = new.length →
      i < new.length →
      (calcOutletsEnergy deltaT prev new).getD i default =
        { new.getD i default with
          energy := (prev.getD i default).energy
            + 1e-3 * deltaT * ((prev.getD i default).trueRMSCurrent * (prev.getD i default).trueRMSVoltage
              + (new.getD i default).trueRMSCurrent * (new.getD i default).trueRMSVoltage) / 2 } := by
  intro prev
  induction prev with
  | nil =>
    intro new i hlen hi
    simp only [List.length_nil] at hlen
    omega
  | cons p ps ih =>
    intro new i hlen hi
    cases new with
    | nil => simp at hi
    | cons n ns =>
      cases i with
      | zero => simp [calcOutletsEnergy]
      | succ j =>
        simp only [calcOutletsEnergy, List.getD_cons_succ]
        exact ih ns j (by simpa using hlen) (by simpa using hi)

/-- C2: For every pair of snapshots with identically sized group and
outlet lists, the energy integrator sets each group's and outlet's
cumulative energy in the new snapshot to the previous snapshot's energy
at the same position plus (prevCurrent*prevVoltage +
newCurrent*newVoltage)/2 * deltaT_hours * 1e-3, where deltaT_hours is
the timestamp gap in hours. -/
theorem calcEnergy_trapezoid (prev new : Status)
    (hg : prev.groups.length = new.groups.length)
    (ho : prev.outlets.length = new.outlets.length) :
    (∀ i, i < new.groups.length →
      ((calcEnergy prev new).groups.getD i default).energy
        = (prev.groups.getD i default).energy
          + ((prev.groups.getD i default).trueRMSCurrent * (prev.groups.getD i default).trueRMSVoltage
             + (new.groups.getD i default).trueRMSCurrent * (new.groups.getD i default).trueRMSVoltage) / 2
            * (new.timestamp - prev.timestamp) * 1e-3)
    ∧ (∀ i, i < new.outlets.length →
      ((calcEnergy prev new).outlets.getD i default).energy
        = (prev.outlets.getD i default).energy
          + ((prev.outlets.getD i default).trueRMSCurrent * (prev.outlets.getD i default).trueRMSVoltage
             + (new.outlets.getD i default).trueRMSCurrent * (new.outlets.getD i default).trueRMSVoltage) / 2
            * (new.timestamp - prev.timestamp) * 1e-3) := by
  constructor
  · intro i hi
    have h := calcGroupsEnergy_getD (new.timestamp - prev.timestamp) prev.groups new.groups i hg hi
    simp only [calcEnergy] at *
    rw [h]
    ring
  · intro i hi
    have h := calcOutletsEnergy_getD (new.timestamp - prev.timestamp) prev.outlets new.outlets i ho hi
    simp only [calcEnergy] at *
    rw [h]
    ring

/-- A previous snapshot for the worked example: time 0 h, one outlet at
1 A and 100 V (100 W) with zero accumulated energy. -/
def prevEnergyEx : Status :=
  { timestamp := 0, temperature := 0, totalKwh := 0, switches := [],
    breakers := [], groups := [],
    outlets := [{ name := "o1", id := 1, groupID := 1, breakerID := 1,
                  state := true, locked := false,
                  trueRMSCurrent := 1, peakRMSCurrent := 1, trueRMSVoltage := 100,
                  averagePower := 100, voltAmps := 100, energy := 0 }] }

/-- A new snapshot one hour later: the same outlet at 2 A and 100 V (200 W). -/
def newEnergyEx : Status :=
  { timestamp := 1, temperature := 0, totalKwh := 0, switches := [],
    breakers := [], groups := [],
    outlets := [{ name := "o1", id := 1, groupID := 1, breakerID := 1,
                  state := true, locked := false,
                  trueRMSCurrent := 2, peakRMSCurrent := 2, trueRMSVoltage := 100,
                  averagePower := 200, voltAmps := 200, energy := 0 }] }

/-- Witness for C2: snapshots one hour apart with outlet power 100 W
then 200 W and starting energy 0 yield energy 0.15 kWh. -/
theorem calcEnergy_trapezoid_witness :
    ((calcEnergy prevEnergyEx newEnergyEx).outlets.getD 0 default).energy = 15 / 100 := by
  have h := (calcEnergy_trapezoid prevEnergyEx newEnergyEx rfl rfl).2 0 (by simp [newEnergyEx])
  rw [h]
  norm_num [prevEnergyEx, newEnergyEx]

/-! ## Status parser (baytech/pdu.go, PDU.Status and PDU.statusOutlets)

A raw report is modelled at the level of its regex match results: each
row pattern contributes one row record per match, and a single-match
pattern contributes an Option.  The numeric captures are carried as
already-parsed rationals since the patterns only admit digit strings. -/

/-- One match of the breaker-row pattern reStatusBreaker. -/
structure BreakerRow where
  name : String
  current : ℚ
  peak : ℚ
deriving DecidableEq, Inhabited

/-- One match of the group-row pattern reStatusGroup. -/
structure GroupRow where
  name : String
  current : ℚ
  peak : ℚ
  volt : ℚ
  power : ℚ
  va : ℚ
deriving DecidableEq, Inhabited

/-- One match of the outlet-row pattern reOstatusOutlet.  stateStr is
the On/Off capture and lockedStr the Locked/empty capture. -/
structure OutletRow where
  name : String
  current : ℚ
  peak : ℚ
  volt : ℚ
  power : ℚ
  va : ℚ
  stateStr : String
  lockedStr : String
deriving DecidableEq, Inhabited

/-- The loop body of statusOutlets for row index i: the outlet id is
i + 1 and the breaker/group ids come from the switch over the id; no
case matches ids outside 1..20, leaving the zero values. -/
def mkOutlet (i : Nat) (o : OutletRow) : OutletStatus :=
  let id : Int := Int.ofNat i + 1
  let bg : Int × Int :=
    if 1 ≤ id ∧ id ≤ 5 then (1, 1)
    else if 6 ≤ id ∧ id ≤ 10 then (1, 2)
    else if 11 ≤ id ∧ id ≤ 15 then (2, 3)
    else if 16 ≤ id ∧ id ≤ 20 then (2, 4)
    else (0, 0)
  { name := o.name, id := id, breakerID := bg.1, groupID := bg.2,
    state := o.stateStr == "On", locked := o.lockedStr == "Locked",
    trueRMSCurrent := o.current, peakRMSCurrent := o.peak,
    trueRMSVoltage := o.volt, averagePower := o.power, voltAmps := o.va,
    energy := 0 }

/-- The row loop of statusOutlets, carrying the running row index. -/
def statusOutletsGo (i : Nat) : List OutletRow → List OutletStatus
  | [] => []
  | o :: rest => mkOutlet i o :: statusOutletsGo (i + 1) rest

/-- statusOutlets applied to the matched outlet rows of an Ostatus
report (the zero-row Decode error is handled by the caller below). -/
def statusOutlets (rows : List OutletRow) : List OutletStatus :=
  statusOutletsGo 0 rows

/-- The breaker loop of PDU.Status: breaker ids are the 0-based row
indices. -/
def mkBreakers (i : Nat) : List BreakerRow → List BreakerStatus
  | [] => []
  | b :: rest =>
    { name := b.name, id := Int.ofNat i,
      trueRMSCurrent := b.current, peakRMSCurrent := b.peak } :: mkBreakers (i + 1) rest

/-- The group loop of PDU.Status: group ids are the 1-based row indices
and the breaker id comes from the switch over the group id (zero when
no case matches). -/
def mkGroups (i : Nat) : List GroupRow → List GroupStatus
  | [] => []
  | g :: rest =>
    let id : Int := Int.ofNat i + 1
    let breakerID : Int := if id = 1 ∨ id = 2 then 1 else if id = 3 ∨ id = 4 then 2 else 0
    { name := g.name, id := id, breakerID := breakerID,
      trueRMSCurrent := g.current, peakRMSCurrent := g.peak,
      trueRMSVoltage := g.volt, averagePower := g.power, voltAmps := g.va,
      energy := 0 } :: mkGroups (i + 1) rest

/-- The match results of one Status report plus, for a detailed fetch,
the matched rows of the Ostatus report.  A None / empty list models a
pattern with no match (FindStringSubmatch or FindAllStringSubmatch
returning nil). -/
structure RawReport where
  kwh : Option Int
  tempF : Option ℚ
  switchMatch : Option (String × String)
  breakerRows : List BreakerRow
  groupRows : List GroupRow
  outletRows : List OutletRow
deriving DecidableEq, Inhabited

/-- PDU.Status decode pipeline, in source order: total kWh, temperature
(Fahrenheit to Celsius), switches, breakers, groups, and for a detailed
fetch the outlet rows via statusOutlets.  Error strings are the ones
the source produces; note that statusOutlets labels its zero-row error
"groups". -/
def statusDecode (r : RawReport) (detailed : Bool) : Except String Status :=
  match r.kwh with
  | none => .error "failed to decode: total Kwh"
  | some kwh =>
    match r.tempF with
    | none => .error "failed to decode temp"
    | some f =>
      match r.switchMatch with
      | none => .error "failed to decode: switches"
      | some sw =>
        if r.breakerRows = [] then .error "failed to decode: breakers"
        else if r.groupRows = [] then .error "failed to decode: groups"
        else if detailed ∧ r.outletRows = [] then .error "failed to decode: groups"
        else .ok
          { timestamp := 0
            temperature := (f - 32) * 5 / 9
            totalKwh := (kwh : ℚ)
            switches := [sw.1 == "Closed", sw.2 == "Closed"]
            breakers := mkBreakers 0 r.breakerRows
            groups := mkGroups 0 r.groupRows
            outlets := if detailed then statusOutlets r.outletRows else [] }

theorem mem_statusOutletsGo {o : OutletStatus} :
    ∀ (k : Nat) (rows : List OutletRow), o ∈ statusOutletsGo k rows →
      ∃ j r, o = mkOutlet j r := by
  intro k rows
  induction rows generalizing k with
  | nil => intro h; simp [statusOutletsGo] at h
  | cons hd tl ih =>
    intro h
    simp only [statusOutletsGo, List.mem_cons] at h
    rcases h with h | h
    · exact ⟨k, hd, h⟩
    · exact ih (k + 1) h

theorem mkOutlet_table (j : Nat) (r : OutletRow) :
    ((1 ≤ (mkOutlet j r).id ∧ (mkOutlet j r).id ≤ 5 →
        (mkOutlet j r).breakerID = 1 ∧ (mkOutlet j r).groupID = 1)
    ∧ (6 ≤ (mkOutlet j r).id ∧ (mkOutlet j r).id ≤ 10 →
        (mkOutlet j r).breakerID = 1 ∧ (mkOutlet j r).groupID = 2)
    ∧ (11 ≤ (mkOutlet j r).id ∧ (mkOutlet j r).id ≤ 15 →
        (mkOutlet j r).breakerID = 2 ∧ (mkOutlet j r).groupID = 3)
    ∧ (16 ≤ (mkOutlet j r).id ∧ (mkOutlet j r).id ≤ 20 →
        (mkOutlet j r).breakerID = 2 ∧ (mkOutlet j r).groupID = 4)) := by
  simp only [mkOutlet]
  split_ifs with h1 h2 h3 h4 <;> simp_all <;> omega

theorem statusDecode_ok_outlets {r : RawReport} {sts : Status}
    (h : statusDecode r true = .ok sts) : sts.outlets = statusOutlets r.outletRows := by
  unfold statusDecode at h
  split at h
  · simp at h
  split at h
  · simp at h
  split at h
  · simp at h
  split at h
  · simp at h
  split at h
  · simp at h
  split at h
  · simp at h
  cases h
  simp

/-- C1: every outlet status record produced by a successful detailed
status fetch derives its breaker id and group id from its
position-derived outlet id by the fixed table: ids 1..5 give breaker 1
group 1, ids 6..10 give breaker 1 group 2, ids 11..15 give breaker 2
group 3 and ids 16..20 give breaker 2 group 4; in particular id 7
yields (1, 2) and id 16 yields (2, 4). -/
theorem statusOutlets_topology (r : RawReport) (sts : Status)
    (h : statusDecode r true = .ok sts) :
    ∀ o ∈ sts.outlets,
      (1 ≤ o.id ∧ o.id ≤ 5 → o.breakerID = 1 ∧ o.groupID = 1)
      ∧ (6 ≤ o.id ∧ o.id ≤ 10 → o.breakerID = 1 ∧ o.groupID = 2)
      ∧ (11 ≤ o.id ∧ o.id ≤ 15 → o.breakerID = 2 ∧ o.groupID = 3)
      ∧ (16 ≤ o.id ∧ o.id ≤ 20 → o.breakerID = 2 ∧ o.groupID = 4)
      ∧ (o.id = 7 → o.breakerID = 1 ∧ o.groupID = 2)
      ∧ (o.id = 16 → o.breakerID = 2 ∧ o.groupID = 4) := by
  intro o ho
  rw [statusDecode_ok_outlets h] at ho
  obtain ⟨j, row, rfl⟩ := mem_statusOutletsGo 0 r.outletRows ho
  have ht := mkOutlet_table j row
  refine ⟨ht.1, ht.2.1, ht.2.2.1, ht.2.2.2, ?_, ?_⟩
  · intro hid
    exact ht.2.1 ⟨by omega, by omega⟩
  · intro hid
    exact ht.2.2.2 ⟨by omega, by omega⟩

/-- A generic outlet row used to build synthetic reports. -/
def outletRowEx : OutletRow :=
  { name := "Outlet", current := 1, peak := 2, volt := 230, power := 230,
    va := 230, stateStr := "On", lockedStr := "" }

/-- A well-formed synthetic report: every section has at least one
match and the outlet table has 20 rows. -/
def rawReportEx : RawReport :=
  { kwh := some 4
    tempF := some 86
    switchMatch := some ("Closed", "Open")
    breakerRows := [{ name := "Input A", current := 3, peak := 5 }]
    groupRows := [{ name := "CKT1", current := 3, peak := 5, volt := 230, power := 690, va := 690 }]
    outletRows := List.replicate 20 outletRowEx }

/-- The decoded detailed status of the synthetic report. -/
def statusEx : Status := (statusDecode rawReportEx true).toOption.getD default

/-- Witness for C1: on the synthetic 20-row report, the record at
position 6 has id 7 and derives (breaker 1, group 2), and the record at
position 15 has id 16 and derives (breaker 2, group 4). -/
theorem statusOutlets_topology_witness :
    (statusEx.outlets.getD 6 default).id = 7
    ∧ (statusEx.outlets.getD 6 default).breakerID = 1
    ∧ (statusEx.outlets.getD 6 default).groupID = 2
    ∧ (statusEx.outlets.getD 15 default).id = 16
    ∧ (statusEx.outlets.getD 15 default).breakerID = 2
    ∧ (statusEx.outlets.getD 15 default).groupID = 4 := by
  have h7 := statusOutlets_topology rawReportEx statusEx (by rfl)
    (statusEx.outlets.getD 6 default) (by decide)
  have h16 := statusOutlets_topology rawReportEx statusEx (by rfl)
    (statusEx.outlets.getD 15 default) (by decide)
  refine ⟨by decide, ?_, ?_, by decide, ?_, ?_⟩
  · exact (h7.2.2.2.2.1 (by decide)).1
  · exact (h7.2.2.2.2.1 (by decide)).2
  · exact (h16.2.2.2.2.2 (by decide)).1
  · exact (h16.2.2.2.2.2 (by decide)).2

/-- The synthetic report with the breaker table removed. -/
def rawReportNoBreakers : RawReport := { rawReportEx with breakerRows := [] }

/-- The synthetic report whose Ostatus outlet table yields zero rows. -/
def rawReportNoOutlets : RawReport := { rawReportEx with outletRows := [] }

/-- C5 (code bug): a transcript missing the breaker table decodes to an
error naming "breakers" as the claim states, but a detailed fetch whose
outlet report yields zero matched rows produces the Decode error
"failed to decode: groups" — the source labels the missing outlets
section "groups" instead of naming the outlets section. -/
theorem statusDecode_zero_row_errors :
    statusDecode rawReportNoBreakers false = .error "failed to decode: breakers"
    ∧ statusDecode rawReportNoOutlets true = .error "failed to decode: groups"
    ∧ (statusDecode rawReportNoOutlets false).isOk = true := by
  refine ⟨by rfl, by rfl, by rfl⟩

/-! ## Freshness cache (Cached.Status / Cached.IsValid)

Wall-clock instants are modelled as integers (milliseconds); each call
passes the current instant `now` and the result the wrapped PDU would
deliver if fetched. -/

/-- The Cached wrapper state: TTL plus the two staleness clocks and the
last stored snapshot. -/
structure CachedState where
  ttl : Int
  lastUpdate : Int
  lastUpdateDetailed : Int
  lastStatus : Option Status
deriving DecidableEq, Inhabited

/-- Cached.IsValid: the clock matching the detailed flag is still
within its TTL (Add(TTL).After(now), i.e. strictly later than now). -/
def cachedIsValid (p : CachedState) (detailed : Bool) (now : Int) : Bool :=
  if detailed then decide (now < p.lastUpdateDetailed + p.ttl)
  else decide (now < p.lastUpdate + p.ttl)

/-- The observable result of one Cached.Status call: the state
afterwards, the returned value (None models the nil-pointer dereference
of an empty cache) and whether the wrapped PDU was fetched. -/
structure CacheResult where
  state : CachedState
  ret : Except String (Option Status)
  didFetch : Bool

/-- Cached.Status: when the matching clock is stale, fetch; a fetch
error is returned unchanged with the state untouched; a fetched
snapshot is stored, the summary clock is set to now and the detailed
clock is set to now only for a detailed call.  The returned value is a
copy of the stored snapshot whose outlet list is cleared for a summary
call. -/
def cachedStatus (p : CachedState) (now : Int) (detailed : Bool)
    (fetch : Except String Status) : CacheResult :=
  if cachedIsValid p detailed now then
    { state := p
      ret := .ok (p.lastStatus.map (fun s => if detailed then s else { s with outlets := [] }))
      didFetch := false }
  else
    match fetch with
    | .error e => { state := p, ret := .error e, didFetch := true }
    | .ok sts =>
      let p1 : CachedState :=
        { p with lastStatus := some sts, lastUpdate := now,
                 lastUpdateDetailed := if detailed then now else p.lastUpdateDetailed }
      { state := p1
        ret := .ok (some (if detailed then sts else { sts with outlets := [] }))
        didFetch := true }

/-- Folds a list of (instant, detailed, fetch result) calls over the
cache, counting how many calls fetched from the wrapped PDU. -/
def runCachedCalls (p : CachedState) : List (Int × Bool × Except String Status) → CachedState × Nat
  | [] => (p, 0)
  | (now, d, f) :: rest =>
    let r := cachedStatus p now d f
    let pr := runCachedCalls r.state rest
    (pr.1, (if r.didFetch then 1 else 0) + pr.2)

/-- A cache whose clocks lie in the far past, modelling the Go zero
time, with a 100 ms TTL. -/
def cacheEx : CachedState :=
  { ttl := 100, lastUpdate := -1000000, lastUpdateDetailed := -1000000, lastStatus := none }

/-- A snapshot delivered by the wrapped PDU in the scenarios. -/
def fetchedEx : Status :=
  { timestamp := 0, temperature := 21, totalKwh := 4, switches := [true, false],
    breakers := [], groups := [], outlets := [default] }

/-- C3: a Cached.Status call fetches from the wrapped PDU exactly when
the staleness clock matching the detailed flag is stale (now is at or
past last-update + TTL); with TTL 100 ms, summary calls at 0 and 50 ms
fetch once, a further call at 150 ms fetches a second time, and a
detailed call at 160 ms fetches although the summary clock is still
fresh, because the detailed clock is stale. -/
theorem cached_fetch_iff :
    (∀ (p : CachedState) (now : Int) (detailed : Bool) (fetch : Except String Status),
      (cachedStatus p now detailed fetch).didFetch = true ↔
        (if detailed then p.lastUpdateDetailed else p.lastUpdate) + p.ttl ≤ now)
    ∧ (runCachedCalls cacheEx [(0, false, .ok fetchedEx), (50, false, .ok fetchedEx)]).2 = 1
    ∧ (runCachedCalls cacheEx
        [(0, false, .ok fetchedEx), (50, false, .ok fetchedEx), (150, false, .ok fetchedEx)]).2 = 2
    ∧ (cachedStatus (runCachedCalls cacheEx
        [(0, false, .ok fetchedEx), (50, false, .ok fetchedEx), (150, false, .ok fetchedEx)]).1
        160 true (.ok fetchedEx)).didFetch = true
    ∧ cachedIsValid (runCachedCalls cacheEx
        [(0, false, .ok fetchedEx), (50, false, .ok fetchedEx), (150, false, .ok fetchedEx)]).1
        false 160 = true := by
  refine ⟨?_, by rfl, by rfl, by rfl, by rfl⟩
  intro p now detailed fetch
  unfold cachedStatus
  by_cases h : cachedIsValid p detailed now = true
  · rw [if_pos h]
    cases detailed <;> simp [cachedIsValid] at h <;> simp <;> omega
  · rw [if_neg h]
    cases fetch with
    | error e => cases detailed <;> simp [cachedIsValid] at h <;> simp <;> omega
    | ok s => cases detailed <;> simp [cachedIsValid] at h <;> simp <;> omega

/-- Witness for C3: the general fetch-iff equivalence applied at a
concrete stale summary call. -/
theorem cached_fetch_iff_witness :
    (cachedStatus cacheEx 0 false (.ok fetchedEx)).didFetch = true :=
  (cached_fetch_iff.1 cacheEx 0 false (.ok fetchedEx)).mpr (by decide)

/-- A cache with both clocks at 0 and a 100 ms TTL, used to exhibit the
clock behaviour of a detailed fetch. -/
def cacheClockEx : CachedState :=
  { ttl := 100, lastUpdate := 0, lastUpdateDetailed := 0, lastStatus := some fetchedEx }

/-- Counterexample to C4: at instant 200 the detailed clock of
cacheClockEx is stale, so the detailed call fetches — and it moves the
summary-fetch clock from 0 to 200, while the claim says a detailed
fetch leaves the summary-fetch clock unchanged. -/
theorem cached_detailed_touches_summary_clock :
    (cachedStatus cacheClockEx 200 true (.ok fetchedEx)).didFetch = true
    ∧ (cachedStatus cacheClockEx 200 true (.ok fetchedEx)).state.lastUpdate = 200
    ∧ cacheClockEx.lastUpdate = 0 := by
  refine ⟨by rfl, by rfl, by rfl⟩

/-- C4 (amended): on a fetch-performing call that succeeds, a summary
fetch advances only the summary clock and leaves the detailed clock
unchanged, while a detailed fetch advances both the summary and the
detailed clock to the fetch instant; a call whose fetch fails leaves
both clocks unchanged. -/
theorem cached_clock_advance (p : CachedState) (now : Int) (s : Status) (e : String) :
    (cachedIsValid p false now = false →
      (cachedStatus p now false (.ok s)).state.lastUpdate = now
      ∧ (cachedStatus p now false (.ok s)).state.lastUpdateDetailed = p.lastUpdateDetailed)
    ∧ (cachedIsValid p true now = false →
      (cachedStatus p now true (.ok s)).state.lastUpdate = now
      ∧ (cachedStatus p now true (.ok s)).state.lastUpdateDetailed = now)
    ∧ (∀ detailed, (cachedStatus p now detailed (.error e)).state = p) := by
  refine ⟨?_, ?_, ?_⟩
  · intro h
    simp [cachedStatus, h]
  · intro h
    simp [cachedStatus, h]
  · intro detailed
    unfold cachedStatus
    by_cases h : cachedIsValid p detailed now = true
    · rw [if_pos h]
    · rw [if_neg h]

/-- Witness for C4 (amended): a concrete stale detailed fetch at
instant 200 sets both clocks to 200. -/
theorem cached_clock_advance_witness :
    (cachedStatus cacheClockEx 200 true (.ok fetchedEx)).state.lastUpdate = 200
    ∧ (cachedStatus cacheClockEx 200 true (.ok fetchedEx)).state.lastUpdateDetailed = 200 :=
  (cached_clock_advance cacheClockEx 200 fetchedEx "").2.1 (by decide)

/-- The poller state visible to one loop iteration: the published
snapshot. -/
structure PollState where
  lastStatus : Option Status
deriving DecidableEq, Inhabited

/-- What the loop body does after handling one fetch result: either it
falls through to the select over stop, ticker and trigger before the
next fetch, or it jumps straight back to fetching. -/
inductive LoopNext
  | waitForSignal
  | refetchImmediately
deriving DecidableEq

/-- One iteration of PolledPDU.loop: a failed detailed fetch is logged
and the iteration continues — skipping the select — while a successful
fetch replaces the snapshot and then blocks on the select. -/
def loopIter (st : PollState) (fetch : Except String Status) : PollState × LoopNext :=
  match fetch with
  | .error _ => (st, .refetchImmediately)
  | .ok newSts => ({ st with lastStatus := some newSts }, .waitForSignal)

/-- PolledPDU.Status: read accessor over the published snapshot; no
snapshot yet is ErrNotPolledYet, a summary call clears the outlets on a
copy of the snapshot. -/
def polledStatus (lastStatus : Option Status) (detailed : Bool) : Except String Status :=
  match lastStatus with
  | none => .error "status has not been polled yet"
  | some s => if detailed then .ok s else .ok { s with outlets := [] }

/-- C9: a summary status call on the cache or on the poller always
returns a snapshot with an empty outlet list, while the stored snapshot
keeps its outlets: the cache stores a fetched snapshot unmodified and a
cache hit leaves the store untouched, so a later detailed call within
the detailed TTL still observes the cached outlets; the poller clears
outlets only on the returned copy, and a detailed poller call still
observes the stored snapshot with its outlet list intact. -/
theorem summary_clears_copy_only :
    (∀ (p : CachedState) (now : Int) (fetch : Except String Status) (ret : Status),
      (cachedStatus p now false fetch).ret = .ok (some ret) → ret.outlets = [])
    ∧ (∀ (p : CachedState) (now : Int) (s : Status),
      cachedIsValid p false now = false →
        (cachedStatus p now false (.ok s)).state.lastStatus = some s)
    ∧ (∀ (p : CachedState) (now : Int) (fetch : Except String Status),
      cachedIsValid p false now = true →
        (cachedStatus p now false fetch).state.lastStatus = p.lastStatus)
    ∧ (∀ (p : CachedState) (now nowLater : Int) (s : Status)
        (fetch fetchLater : Except String Status),
      p.lastStatus = some s →
      cachedIsValid p false now = true →
      cachedIsValid p true nowLater = true →
        (cachedStatus (cachedStatus p now false fetch).state nowLater true fetchLater).ret
          = .ok (some s))
    ∧ (∀ s : Status, polledStatus (some s) false = .ok { s with outlets := [] })
    ∧ (∀ s : Status, polledStatus (some s) true = .ok s) := by
  refine ⟨?_, ?_, ?_, ?_, ?_, ?_⟩
  · intro p now fetch ret h
    unfold cachedStatus at h
    by_cases hv : cachedIsValid p false now = true
    · rw [if_pos hv] at h
      simp only [Except.ok.injEq] at h
      cases hls : p.lastStatus with
      | none => rw [hls] at h; simp at h
      | some s =>
        rw [hls] at h
        simp only [Option.map_some, Bool.false_eq_true, if_false, Option.some.injEq] at h
        cases h
        rfl
    · rw [if_neg hv] at h
      cases fetch with
      | error e => simp at h
      | ok s =>
        simp only [Except.ok.injEq, Option.some.injEq, Bool.false_eq_true, if_false] at h
        cases h
        rfl
  · intro p now s h
    simp [cachedStatus, h]
  · intro p now fetch h
    simp [cachedStatus, h]
  · intro p now nowLater s fetch fetchLater hls hv hvd
    have hstate : (cachedStatus p now false fetch).state = p := by
      simp [cachedStatus, hv]
    rw [hstate]
    simp [cachedStatus, hvd, hls]
  · intro s
    rfl
  · intro s
    rfl

/-- Witness for C9: a fresh cache holding a detailed snapshot serves a
summary call with the outlets cleared on the copy and a detailed call
immediately after still sees the stored outlets; the poller serves a
summary call with the outlets cleared on the copy and a detailed call
with the stored snapshot intact. -/
theorem summary_clears_copy_only_witness :
    (cachedStatus (cachedStatus cacheClockEx 50 false (.ok fetchedEx)).state 60 true
      (.ok fetchedEx)).ret = .ok (some fetchedEx)
    ∧ polledStatus (some fetchedEx) false = .ok { fetchedEx with outlets := [] }
    ∧ polledStatus (some fetchedEx) true = .ok fetchedEx :=
  ⟨summary_clears_copy_only.2.2.2.1 cacheClockEx 50 60 fetchedEx (.ok fetchedEx)
      (.ok fetchedEx) (by rfl) (by decide) (by decide),
   summary_clears_copy_only.2.2.2.2.1 fetchedEx,
   summary_clears_copy_only.2.2.2.2.2 fetchedEx⟩

/-! ## Poller (PolledPDU) -/

/-- C6 (code bug): when the detailed fetch of a loop iteration fails,
the previously published snapshot is indeed retained unchanged, but the
loop re-fetches immediately instead of waiting at least one poll
interval — only a successful iteration waits on the stop/tick/trigger
select. -/
theorem polled_loop_error_step :
    (loopIter { lastStatus := some fetchedEx } (.error "failed to get status")).1.lastStatus
      = some fetchedEx
    ∧ (loopIter { lastStatus := some fetchedEx } (.error "failed to get status")).2
      = .refetchImmediately
    ∧ (loopIter { lastStatus := some fetchedEx } (.ok statusEx)).2 = .waitForSignal := by
  refine ⟨by rfl, by rfl, by rfl⟩

/-! ## Driver Close (baytech/pdu.go, PDU.Close) -/

/-- PDU.Close, modelled over the outcomes of its two effects: the
logout attempt and the transport close.  The first component records
whether the transport close was ever attempted; the second is the
returned error. -/
def pduClose (logoutErr : Option String) (connCloseErr : Option String) :
    Bool × Option String :=
  match logoutErr with
  | some e => (false, some ("failed to logout: " ++ e))
  | none =>
    match connCloseErr with
    | some e => (true, some ("failed to close: " ++ e))
    | none => (true, none)

/-- C7 (code bug): when the logout attempt fails, Close returns the
logout error without ever releasing the transport — the transport is
closed only when the logout succeeds, contradicting the unconditional
release the claim requires. -/
theorem pduClose_logout_failure :
    pduClose (some "connection reset") none
      = (false, some "failed to logout: connection reset")
    ∧ pduClose none none = (true, none)
    ∧ pduClose none (some "bad fd") = (true, some "failed to close: bad fd") := by
  refine ⟨by rfl, by rfl, by rfl⟩

/-! ## Outlet identifier lookup (PDU.lookupID over strconv.ParseInt)

lookupID parses its argument with strconv.ParseInt(idStr, 0, 64): base
0 means base is inferred from the prefix (0b/0o/0x, a bare leading 0 is
octal), underscores are digit separators, and the value must fit int64.
The parser below follows the Go standard library implementation of that
call; it returns None on any syntax or range error, which is all
lookupID observes. -/

/-- Go's lower(c): fold an ASCII letter to lower case with bit 0x20. -/
def lowerChar (c : Char) : Char := Char.ofNat (c.toNat ||| 0x20)

/-- One error kind of strconv: malformed syntax or out of range. -/
inductive GoNumErr
  | syntaxErr
  | rangeErr
deriving DecidableEq

/-- The scanning state machine of Go's underscoreOK: underscores may
appear only between digits (the base prefix counting as a digit), and
the number must not end in an underscore. -/
def underscoreOKLoop (hex : Bool) (saw : Char) : List Char → Bool
  | [] => decide (saw ≠ '_')
  | c :: rest =>
    if (48 ≤ c.toNat ∧ c.toNat ≤ 57)
        ∨ (hex ∧ 97 ≤ (lowerChar c).toNat ∧ (lowerChar c).toNat ≤ 102) then
      underscoreOKLoop hex '0' rest
    else if c = '_' then
      if saw = '0' then underscoreOKLoop hex '_' rest else false
    else if saw = '_' then false
    else underscoreOKLoop hex '!' rest

/-- Go's underscoreOK over the sign-stripped numeral. -/
def underscoreOK (s : List Char) : Bool :=
  let s1 := match s with
    | c :: rest => if c = '-' ∨ c = '+' then rest else s
    | [] => s
  match s1 with
  | c0 :: c1 :: rest =>
    if c0 = '0' ∧ (lowerChar c1 = 'b' ∨ lowerChar c1 = 'o' ∨ lowerChar c1 = 'x') then
      underscoreOKLoop (decide (lowerChar c1 = 'x')) '0' rest
    else underscoreOKLoop false '^' s1
  | _ => underscoreOKLoop false '^' s1

/-- Base detection of ParseUint with base argument 0: 0b/0o/0x prefixes
select 2/8/16 when at least one digit follows, a bare leading zero
selects octal, anything else is decimal. -/
def baseAndDigits (s : List Char) : Nat × List Char :=
  match s with
  | c0 :: c1 :: rest =>
    if c0 = '0' then
      if lowerChar c1 = 'b' ∧ rest ≠ [] then (2, rest)
      else if lowerChar c1 = 'o' ∧ rest ≠ [] then (8, rest)
      else if lowerChar c1 = 'x' ∧ rest ≠ [] then (16, rest)
      else (8, c1 :: rest)
    else (10, s)
  | [c0] => if c0 = '0' then (8, []) else (10, s)
  | [] => (10, s)

/-- Digit value of a character as in the ParseUint loop: 0-9, then
case-folded letters counting from 10. -/
def digitVal (c : Char) : Option Nat :=
  if 48 ≤ c.toNat ∧ c.toNat ≤ 57 then some (c.toNat - 48)
  else if 97 ≤ (lowerChar c).toNat ∧ (lowerChar c).toNat ≤ 122 then
    some ((lowerChar c).toNat - 97 + 10)
  else none

/-- The accumulation loop of ParseUint: underscores are skipped (and
remembered), a non-digit or a digit at or above the base is a syntax
error, and exceeding the 64-bit range is a range error. -/
def parseUintLoop (base : Nat) : List Char → Nat → Bool → Except GoNumErr (Nat × Bool)
  | [], n, us => .ok (n, us)
  | c :: rest, n, us =>
    if c = '_' then parseUintLoop base rest n true
    else
      match digitVal c with
      | none => .error .syntaxErr
      | some d =>
        if base ≤ d then .error .syntaxErr
        else
          let n1 := n * base + d
          if 2 ^ 64 - 1 < n1 then .error .rangeErr
          else parseUintLoop base rest n1 us

/-- ParseUint with base 0 and bitSize 64 on the sign-stripped numeral;
when underscores were seen they must pass underscoreOK. -/
def parseUintBase0 (s : List Char) : Except GoNumErr Nat :=
  match s with
  | [] => .error .syntaxErr
  | _ =>
    let bd := baseAndDigits s
    match parseUintLoop bd.1 bd.2 0 false with
    | .error e => .error e
    | .ok (n, us) => if us = true ∧ underscoreOK s = false then .error .syntaxErr else .ok n

/-- strconv.ParseInt(str, 0, 64) as observed by lookupID: Some value on
success, None on any syntax or range error (an int64 overflow is a
range error, so lookupID treats the numeral as unparseable). -/
def goParseInt (str : String) : Option Int :=
  match str.data with
  | [] => none
  | c :: rest =>
    if c = '-' ∨ c = '+' then
      match parseUintBase0 rest with
      | .error _ => none
      | .ok un =>
        if c = '-' then
          if 2 ^ 63 < un then none else some (-(un : Int))
        else
          if 2 ^ 63 ≤ un then none else some (un : Int)
    else
      match parseUintBase0 (c :: rest) with
      | .error _ => none
      | .ok un => if 2 ^ 63 ≤ un then none else some (un : Int)

/-- The two error kinds lookupID can report: the ErrInvalidOutletID
sentinel, or ErrNotFound wrapped around the identifier. -/
inductive LookupErr
  | invalidOutletID
  | notFound (idStr : String)
deriving DecidableEq

/-- The message of a lookupID error as the callers format it. -/
def lookupErrString : LookupErr → String
  | .invalidOutletID => "invalid outlet ID"
  | .notFound idStr => "failed to find outlet: " ++ idStr

/-- PDU.lookupID: "all" means outlet 0; a numeral parsed by ParseInt
with inferred base is range-checked against 0..NumOutlets (20);
anything unparseable is ErrNotFound. -/
def lookupID (idStr : String) : Except LookupErr Int :=
  if idStr = "all" then .ok 0
  else
    match goParseInt idStr with
    | some id => if id < 0 ∨ 20 < id then .error .invalidOutletID else .ok id
    | none => .error (.notFound idStr)

/-- PDU.SwitchOutlet up to its device effect: an identifier that fails
lookup is rejected before any command string is produced; otherwise the
single On/Off command for the resolved id is emitted. -/
def switchOutlet (idStr : String) (state : Bool) : Except String (List String) :=
  match lookupID idStr with
  | .error e => .error ("invalid outlet ID: " ++ lookupErrString e)
  | .ok id => .ok [(if state then "On " else "Off ") ++ toString id]

/-- The acceptance set exactly as the claim words it (written from the
claim, not from the source, for comparison): the literal "all" or a
decimal numeral between 1 and 20. -/
def claimedAcceptedID (s : String) : Bool :=
  s == "all" || (List.range 20).any (fun n => s == toString (n + 1))

/-- Counterexample to C8: the identifier "0" is accepted by lookupID
(resolving, like "all", to the all-outlets sentinel 0) although it is
neither "all" nor a decimal numeral between 1 and 20. -/
theorem lookupID_accepts_zero :
    lookupID "0" = .ok 0 ∧ claimedAcceptedID "0" = false := by
  refine ⟨by rfl, by decide⟩

/-- C8 (amended): an identifier is accepted exactly when it is "all" or
a numeral in Go's base-0 ParseInt syntax (decimal, 0b/0o/0x-prefixed or
bare-leading-zero octal, underscore separators allowed) whose value
lies between 0 and 20; an identifier failing lookup is rejected before
any device command is produced, with InvalidOutletID when the numeral
parses to an out-of-range value and NotFound otherwise — including
numerals overflowing int64, such as "99999999999999999999". -/
theorem lookupID_amended :
    (∀ s, (∃ v, lookupID s = .ok v) ↔
      (s = "all" ∨ ∃ v, goParseInt s = some v ∧ 0 ≤ v ∧ v ≤ 20))
    ∧ (∀ s v, goParseInt s = some v → (v < 0 ∨ 20 < v) →
        lookupID s = .error .invalidOutletID)
    ∧ (∀ s, s ≠ "all" → goParseInt s = none → lookupID s = .error (.notFound s))
    ∧ (∀ s st e, lookupID s = .error e →
        switchOutlet s st = .error ("invalid outlet ID: " ++ lookupErrString e))
    ∧ lookupID "0x14" = .ok 20
    ∧ lookupID "0b101" = .ok 5
    ∧ lookupID "017" = .ok 15
    ∧ lookupID "1_5" = .ok 15
    ∧ lookupID "-1" = .error .invalidOutletID
    ∧ lookupID "21" = .error .invalidOutletID
    ∧ lookupID "abc" = .error (.notFound "abc")
    ∧ lookupID "99999999999999999999" = .error (.notFound "99999999999999999999") := by
  refine ⟨?_, ?_, ?_, ?_, by rfl, by rfl, by rfl, by rfl, by rfl, by rfl, by rfl, by rfl⟩
  · intro s
    by_cases hall : s = "all"
    · subst hall
      simp [lookupID]
    · cases hp : goParseInt s with
      | none => simp [lookupID, hall, hp]
      | some v =>
        constructor
        · rintro ⟨w, hw⟩
          simp only [lookupID, hall, if_false, hp] at hw
          by_cases hr : v < 0 ∨ 20 < v
          · simp [hr] at hw
          · push_neg at hr
            exact Or.inr ⟨v, rfl, by omega, by omega⟩
        · rintro (h | ⟨w, hw, h0, h20⟩)
          · exact absurd h hall
          · injection hw with hvw
            subst hvw
            have hnr : ¬(v < 0 ∨ 20 < v) := by omega
            exact ⟨v, by simp [lookupID, hall, hp, hnr]⟩
  · intro s v hp hr
    by_cases hall : s = "all"
    · subst hall
      rw [show goParseInt "all" = none from rfl] at hp
      exact absurd hp (by simp)
    · simp [lookupID, hall, hp, hr]
  · intro s hall hp
    simp [lookupID, hall, hp]
  · intro s st e h
    simp [switchOutlet, h]

/-- Witness for C8 (amended): the error-classification branches applied
at the concrete inputs "30" (parseable, out of range) and "x1"
(unparseable). -/
theorem lookupID_amended_witness :
    lookupID "30" = .error .invalidOutletID
    ∧ lookupID "x1" = .error (.notFound "x1") :=
  ⟨lookupID_amended.2.1 "30" 30 (by rfl) (by decide),
   lookupID_amended.2.2.1 "x1" (by decide) (by rfl)⟩

/-! ## HTTP authorization middleware (server.go, Handler's mwAuth)

The middleware is embedded up to the ACL matcher: the acl value is kept
as an abstract list (only its emptiness is inspected by the middleware
itself) and its Check method is passed as a function, as is the
kebab-case conversion applied to the operation id. -/

/-- The part of an HTTP request mwAuth inspects: the verified
client-certificate chains (None when the request carries no TLS state,
each certificate reduced to its subject common name) and the outlet id
extracted from the request payload. -/
structure HTTPRequest where
  verifiedChains : Option (List (List String))
  outletID : String

/-- The outcome of the wrapped handler: the inner handler's response,
or one of the two middleware rejections. -/
inductive MWOutcome (α : Type)
  | ok (a : α)
  | missingClientCert
  | accessDenied
deriving DecidableEq

/-- Handler's mwAuth middleware: with an empty ACL the inner handler is
returned as-is; otherwise a missing or empty verified chain is
ErrMissingClientCert, and the ACL must authorize (common name,
kebab-cased operation, outlet id) or the call is ErrAccessDenied. -/
def mwAuth {γ α : Type} (acl : List γ) (check : String → String → String → Bool)
    (kebab : String → String) (operationID : String)
    (f : HTTPRequest → α) (r : HTTPRequest) : MWOutcome α :=
  if acl.length = 0 then .ok (f r)
  else
    match r.verifiedChains with
    | none => .missingClientCert
    | some [] => .missingClientCert
    | some ([] :: _) => .missingClientCert
    | some ((commonName :: _) :: _) =>
      if check commonName (kebab operationID) r.outletID then .ok (f r)
      else .accessDenied

/-- C10: with an empty access-control list the middleware invokes the
wrapped handler directly on every request — for every Check function
and every request, including requests without any TLS state, the
outcome is the inner handler's response, so no certificate-presence or
ACL check is performed and every (identity, operation, outlet-id)
triple is authorized. -/
theorem mwAuth_empty_acl (γ α : Type) (check : String → String → String → Bool)
    (kebab : String → String) (operationID : String)
    (f : HTTPRequest → α) (r : HTTPRequest) :
    mwAuth ([] : List γ) check kebab operationID f r = .ok (f r) := by
  simp [mwAuth]

end Pductl
